import Mathlib

/-!
Verification development for the universal-subnet-runner orchestrator.

The repository contains two variants of the same Go program:
  * `main.go` — the historical variant: loads a JSON run-history file
    (`config.json`), shifts every node port by `defaultShift * len(configs)`,
    starts a network, appends a `{NetworkID, PortShifting}` record, and stops
    the network both from a signal handler (`shutdownOnSignal`) and from a
    deferred cleanup in `run`.
  * `unnamed/part_000` — the multi-subnet variant: starts
    `subnetSize * amountOfSubnets` nodes, partitions the node list into
    contiguous groups of `subnetSize`, creates one blockchain per group and
    publishes per-node RPC URLs `http://127.0.0.1:{port}/ext/bc/{chain}/rpc`.

External effects (filesystem, OS signals, the avalanche network library) are
embedded as explicit oracle records describing the outcome of each external
call, in the order the Go code performs them; the pure data flow (port
arithmetic, list slicing, URL formatting, history append) is translated
directly.
-/

namespace USR

/-- `NetworkConfig` from `main.go`: one persisted run-history record. -/
structure NetworkConfig where
  networkID : Nat
  portShifting : Nat
deriving DecidableEq, Repr

/-- `defaultShift` constant from `main.go`. -/
def defaultShift : Nat := 10

namespace Historical

/-- Possible states of the history file `config.json`, as distinguished by
`main.go` lines 90-103: `os.Stat` fails (file absent), `os.ReadFile` fails,
`json.Unmarshal` fails, or the file parses to a record list. -/
inductive HistoryFile where
  | absent
  | unreadable
  | unparseable
  | parsed (records : List NetworkConfig)
deriving DecidableEq

/-- The history-loading logic of `main` (`main.go` lines 90-103): when
`os.Stat` fails the read is skipped and the global `configs` stays empty;
when the file exists but `os.ReadFile` or `json.Unmarshal` fails, `main`
logs the error and returns, so `run` is never called — encoded as `none`.
`some cs` means `main` proceeds to call `run` with loaded records `cs`. -/
def loadConfigs : HistoryFile → Option (List NetworkConfig)
  | .absent => some []
  | .unreadable => none
  | .unparseable => none
  | .parsed records => some records

/-- The port shift computed in `run` (`main.go` line 164):
`shift := defaultShift * len(configs)`. -/
def shift (configs : List NetworkConfig) : Nat :=
  defaultShift * configs.length

/-- Process exit code of `main` (`main.go` lines 90-114): an unreadable or
unparseable history file makes `main` log and `return` (normal return, exit
code 0); otherwise `run` is called and a non-nil error gives
`log.Fatal` + `os.Exit(1)`, while a nil error falls off `main` (exit 0).
`runOk` records whether `run` returned nil. -/
def mainExitCode (h : HistoryFile) (runOk : Bool) : Nat :=
  match loadConfigs h with
  | none => 0
  | some _ => if runOk then 0 else 1

/-- The in-memory history after the post-bootstrap update in `run`
(`main.go` lines 187-189): exactly one record `{networkID, shift}` is
appended to the loaded list; the same list is then marshalled and written
whole to the history file (lines 192-199). -/
def updatedConfigs (configs : List NetworkConfig) (networkID : Nat) : List NetworkConfig :=
  configs ++ [⟨networkID, shift configs⟩]

/-- One completed execution of the historical variant, as an oracle of the
outcomes of the external calls `run` makes in program order (`main.go`
lines 158-272), plus whether a SIGINT/SIGTERM was delivered before the
process ended. -/
structure Trace where
  newNetworkOk : Bool
  getNetworkIDOk : Bool
  writeFileOk : Bool
  await1Ok : Bool
  copiesOk : Bool
  createChainsOk : Bool
  await2Ok : Bool
  signal : Bool
deriving DecidableEq

/-- The signal handler goroutine (`shutdownOnSignal`, `main.go` lines 51-65)
is started only after `NewNetwork`, `GetNetworkID` and the history write all
succeed (lines 206-212). -/
def handlerInstalled (t : Trace) : Bool :=
  t.newNetworkOk && t.getNetworkIDOk && t.writeFileOk

/-- `shutdownOnSignal` calls `n.Stop` exactly when it is running and a
signal arrives on `signalChan` (`main.go` lines 57-59). -/
def handlerStops (t : Trace) : Bool :=
  handlerInstalled t && t.signal

/-- `run` returns (so the execution completes) iff some phase fails, or the
final block on `closedOnShutdownCh` (`main.go` line 270) is released, which
happens only after a signal has been handled. -/
def pipelineCompletes (t : Trace) : Bool :=
  !t.newNetworkOk || !t.getNetworkIDOk || !t.writeFileOk || !t.await1Ok ||
    !t.copiesOk || !t.createChainsOk || !t.await2Ok || (handlerStops t)

/-- The deferred cleanup (`main.go` lines 176-180) calls `nw.Stop` exactly
when the network was created and `run` returns. -/
def deferredStops (t : Trace) : Bool :=
  t.newNetworkOk && pipelineCompletes t

/-- Total number of `Stop` invocations on the network handle across one
completed execution: one from the signal handler when it fires, one from
the deferred cleanup when `run` returns after `NewNetwork` succeeded. -/
def stopCount (t : Trace) : Nat :=
  (if handlerStops t then 1 else 0) + (if deferredStops t then 1 else 0)

/-- The trace of a normal shutdown: every phase succeeds and the operator
sends SIGINT/SIGTERM. -/
def normalShutdownTrace : Trace :=
  ⟨true, true, true, true, true, true, true, true⟩

/-- The trace of a run whose first health wait fails (e.g. times out) with
no signal delivered. -/
def failedAwaitTrace : Trace :=
  ⟨true, true, true, false, true, true, true, false⟩

end Historical

namespace Multi

/-- `subnetSize` constant from `unnamed/part_000` line 23. -/
def subnetSize : Nat := 3

/-- Node count requested from the network library
(`unnamed/part_000` line 135): `uint32(subnetSize * amountOfSubnets)`; the
Go conversion to `uint32` reduces modulo `2^32`. -/
def requestedNodeCount (amountOfSubnets : Nat) : Nat :=
  (subnetSize * amountOfSubnets) % 2 ^ 32

/-- Return time of `await` (`unnamed/part_000` lines 88-98), measured from
the call, in abstract time units. `await` derives a context from its parent
with the given timeout and blocks in `nw.Healthy`, which returns at the
earliest of: the cluster turning healthy (`healthyAt`), the timeout, and
the parent context's cancellation (`parentCancelAt`, `none` when the parent
is never cancelled). -/
def awaitTime (parentCancelAt : Option Nat) (timeout healthyAt : Nat) : Nat :=
  min healthyAt (min timeout (parentCancelAt.getD timeout))

/-- Return time of the health waits performed by `run`
(`unnamed/part_000` lines 130-132 and 153, 193): `run` passes `await` the
context it received from `main`, which is `context.Background()` and is
never cancelled; the termination signal only feeds the `shutdownSignal`
channel (line 132) and is not wired to any context, so `signalAt` — the
time a SIGINT/SIGTERM is delivered, if any — does not enter the wait. -/
def runAwaitTime (signalAt : Option Nat) (timeout healthyAt : Nat) : Nat :=
  awaitTime none timeout healthyAt

/-- `NodeDescriptor`: the per-node data `run` reads from the network
library via `GetNode` — `GetDataDir` and `GetAPIPort`. -/
structure NodeDescriptor where
  name : String
  dataDir : String
  apiPort : Nat
deriving DecidableEq, Repr

/-- The subnet partition built by `run` (`unnamed/part_000` lines 176-185):
group `i` is the Go slice `nodeNames[i*size : (i+1)*size]`, i.e. drop
`i*size` elements then take `size`; there are `count` groups, in order. -/
def partition (nodes : List α) (count size : Nat) : List (List α) :=
  (List.range count).map fun i => (nodes.drop (i * size)).take size

/-- RPC URL format string from `unnamed/part_000` line 203:
`http://127.0.0.1:%d/ext/bc/%s/rpc`. -/
def rpcUrl (apiPort : Nat) (chainID : String) : String :=
  "http://127.0.0.1:" ++ toString apiPort ++ "/ext/bc/" ++ chainID ++ "/rpc"

/-- The URL list built by `run` (`unnamed/part_000` lines 197-205): for
each index `i` into the flattened node list, the URL uses that node's API
port and the chain identifier `chains[i / subnetSize]` of the node's
subnet. -/
def rpcUrls (nodes : List NodeDescriptor) (chains : List String) : List String :=
  (List.range nodes.length).map fun i =>
    rpcUrl (((nodes.get? i).map NodeDescriptor.apiPort).getD 0)
      ((chains.get? (i / subnetSize)).getD "")

/-- A concrete nine-node cluster (scenario B of the spec: three subnets of
three nodes), used to instantiate the URL theorem. -/
def sampleNodes : List NodeDescriptor :=
  [⟨"node1", "d1", 9650⟩, ⟨"node2", "d2", 9652⟩, ⟨"node3", "d3", 9654⟩,
   ⟨"node4", "d4", 9656⟩, ⟨"node5", "d5", 9658⟩, ⟨"node6", "d6", 9660⟩,
   ⟨"node7", "d7", 9662⟩, ⟨"node8", "d8", 9664⟩, ⟨"node9", "d9", 9666⟩]

end Multi

namespace Copy

/-- Outcome of the initial `os.Stat(src)` in `copy` (both variants):
either the call fails (source missing or path unreadable), or it succeeds
and reports whether the mode is a regular file. -/
inductive StatResult where
  | err
  | ok (isRegular : Bool)
deriving DecidableEq

/-- Oracle for one invocation of `copy` (`unnamed/part_000` lines 100-127,
`main.go` lines 129-156): outcomes of the external calls in program order.
`ioBytes` is the number of bytes `io.Copy` transferred; `ioErr` is whether
`io.Copy` returned an error (transfer incomplete). -/
structure Env where
  statRes : StatResult
  openOk : Bool
  createOk : Bool
  ioBytes : Nat
  ioErr : Bool
  chmodOk : Bool
deriving DecidableEq

/-- The distinct error exits of `copy`, in the order they appear in the
source. -/
inductive Err where
  | statFailed
  | notRegular
  | openFailed
  | createFailed
  | copyFailed
  | chmodFailed
deriving DecidableEq

/-- A destination file on disk after `copy`: its byte count and its
permission bits. -/
structure DstFile where
  bytes : Nat
  mode : Nat
deriving DecidableEq, Repr

/-- Default permission bits of a file made by `os.Create` (0666). -/
def createMode : Nat := 0o666

/-- The bits `copy` passes to `os.Chmod` (0777). -/
def chmodMode : Nat := 0o777

/-- Whether permission bits include any execute bit. -/
def allowsExecution (mode : Nat) : Bool :=
  mode &&& 0o111 != 0

/-- Shallow embedding of `copy` (`unnamed/part_000` lines 100-127, textually
identical in `main.go` lines 129-156). Returns the resulting destination
file (`none`: never created) and the Go return pair `(int64, error)`, with
`none` for a nil error. Control flow follows the source: stat error, then
the regular-file check, then `os.Open`, then `os.Create`; after `io.Copy`
the code chmods the destination to 0777 unconditionally — the chmod error
check shadows the `io.Copy` error, so a failed chmod returns `(0, chmodErr)`
and otherwise the `io.Copy` result is returned. The destination file is
never removed once created. -/
def copy (e : Env) : Option DstFile × Nat × Option Err :=
  match e.statRes with
  | .err => (none, 0, some .statFailed)
  | .ok isRegular =>
    if !isRegular then (none, 0, some .notRegular)
    else if !e.openOk then (none, 0, some .openFailed)
    else if !e.createOk then (none, 0, some .createFailed)
    else
      let dst : DstFile :=
        { bytes := e.ioBytes, mode := if e.chmodOk then chmodMode else createMode }
      if !e.chmodOk then (some dst, 0, some .chmodFailed)
      else (some dst, e.ioBytes, if e.ioErr then some .copyFailed else none)

end Copy

/-! ## Theorems -/

/-- The partition always has one group per requested subnet. -/
theorem partition_length (nodes : List α) (count size : Nat) :
    (Multi.partition nodes count size).length = count := by
  simp [Multi.partition]

/-- Concatenating the groups in order reproduces the first
`count * size` nodes of the list: the groups are contiguous, taken in
list order starting at index 0, and cover a prefix. -/
theorem partition_flatten (nodes : List α) (count size : Nat)
    (h : count * size ≤ nodes.length) :
    (Multi.partition nodes count size).flatten = nodes.take (count * size) := by
  induction count with
  | zero => simp [Multi.partition]
  | succ n ih =>
    have hn : n * size ≤ nodes.length :=
      le_trans (Nat.mul_le_mul_right _ (Nat.le_succ n)) h
    have ihn := ih hn
    simp only [Multi.partition, List.range_succ, List.map_append, List.flatten_append,
      List.map_cons, List.map_nil, List.flatten_cons, List.flatten_nil,
      List.append_nil] at ihn ⊢
    rw [ihn, Nat.succ_mul, List.take_add]

/-- Every group produced under the size invariant has exactly `size`
elements. -/
theorem partition_sizes (nodes : List α) (count size : Nat)
    (h : count * size ≤ nodes.length) :
    ∀ g ∈ Multi.partition nodes count size, g.length = size := by
  intro g hg
  simp only [Multi.partition, List.mem_map, List.mem_range] at hg
  obtain ⟨i, hi, rfl⟩ := hg
  have hstep : size + i * size ≤ nodes.length := by
    have h1 : (i + 1) * size ≤ count * size := Nat.mul_le_mul_right _ hi
    calc size + i * size = (i + 1) * size := by rw [Nat.succ_mul, Nat.add_comm]
    _ ≤ count * size := h1
    _ ≤ nodes.length := h
  rw [List.length_take, List.length_drop]
  exact Nat.min_eq_left (Nat.le_sub_of_add_le hstep)

/-- Under the size invariant, for a duplicate-free node list the groups are
pairwise disjoint. -/
theorem partition_disjoint (nodes : List α) (count size : Nat)
    (h : count * size ≤ nodes.length) (hnd : nodes.Nodup) :
    (Multi.partition nodes count size).Pairwise List.Disjoint := by
  have hflat : (Multi.partition nodes count size).flatten.Nodup := by
    rw [partition_flatten nodes count size h]
    exact (List.take_sublist _ _).nodup hnd
  exact (List.nodup_flatten.mp hflat).2

/-- C1 counterexample: on a normal shutdown of the historical variant
(every phase succeeds, then SIGINT/SIGTERM arrives), `Stop` is invoked
twice — once by `shutdownOnSignal` and once by the deferred cleanup in
`run` — not exactly once as claimed. -/
theorem c1_two_stops_on_normal_shutdown :
    Historical.stopCount Historical.normalShutdownTrace = 2 := by
  decide

/-- C1 amended: in every completed execution of the historical variant in
which the network was created, `Stop` is invoked at least once; it is
invoked exactly once when no signal is handled (e.g. a mid-pipeline
failure), but twice whenever the signal handler fires — normal shutdown
and a signal during a health wait both invoke `Stop` from the signal
handler and again from the deferred cleanup. -/
theorem c1_stop_count_amended (t : Historical.Trace)
    (hnet : t.newNetworkOk = true) (hdone : Historical.pipelineCompletes t = true) :
    1 ≤ Historical.stopCount t ∧
    (t.signal = false → Historical.stopCount t = 1) ∧
    (Historical.handlerStops t = true → Historical.stopCount t = 2) := by
  obtain ⟨a, b, c, d, e, f, g, s⟩ := t
  revert hnet hdone
  revert a b c d e f g s
  decide

/-- C1 witness: the amended statement applied to a run whose first health
wait fails with no signal delivered. -/
theorem c1_stop_count_amended_witness :
    1 ≤ Historical.stopCount Historical.failedAwaitTrace ∧
    (Historical.failedAwaitTrace.signal = false →
      Historical.stopCount Historical.failedAwaitTrace = 1) ∧
    (Historical.handlerStops Historical.failedAwaitTrace = true →
      Historical.stopCount Historical.failedAwaitTrace = 2) :=
  c1_stop_count_amended Historical.failedAwaitTrace (by decide) (by decide)

/-- C2 counterexample: in the multi-subnet variant, a termination signal
delivered at time 0, well before the 120-unit timeout, does not shorten a
health wait on a cluster that would turn healthy at time 200: the wait
still returns only at the full timeout, because the signal channel is not
wired to the context `run` passes to `await`. -/
theorem c2_signal_does_not_interrupt_wait :
    Multi.runAwaitTime (some 0) 120 200 = 120 := by
  decide

/-- C2 amended: `await` itself does honour cancellation of the context it
is given — a parent cancelled at time `c` bounds the wait by `c` — but
`run` passes `await` a context that the termination signal never cancels,
so the health wait's return time is `min healthyAt timeout` regardless of
when (or whether) a signal arrives. -/
theorem c2_await_cancellation_amended (signalAt : Option Nat) (timeout healthyAt c : Nat) :
    Multi.runAwaitTime signalAt timeout healthyAt = min healthyAt timeout ∧
    Multi.awaitTime (some c) timeout healthyAt ≤ c := by
  constructor
  · simp [Multi.runAwaitTime, Multi.awaitTime, Option.getD]
  · exact le_trans (Nat.min_le_right _ _) (Nat.min_le_right _ _)

/-- C3 counterexample: when the history file exists but cannot be read,
`main` logs the error and returns before ever calling `run` (encoded as
`none`): the run does not proceed with `k = 0` as claimed. -/
theorem c3_unreadable_history_aborts :
    Historical.loadConfigs Historical.HistoryFile.unreadable = none := by
  rfl

/-- C3 amended: the port shift is always `10 * k` for `k` loaded records;
an absent history file yields `k = 0` (shift 0) and the run proceeds, but
a history file that exists and is unreadable or unparseable aborts the
process before `run` is called. -/
theorem c3_port_shift_amended :
    (∀ records : List NetworkConfig, Historical.shift records = 10 * records.length) ∧
    Historical.loadConfigs Historical.HistoryFile.absent = some [] ∧
    Historical.shift [] = 0 ∧
    Historical.loadConfigs Historical.HistoryFile.unreadable = none ∧
    Historical.loadConfigs Historical.HistoryFile.unparseable = none :=
  ⟨fun _ => rfl, rfl, rfl, rfl, rfl⟩

/-- C7 counterexample: an unreadable history file — a ConfigurationError
per the spec — makes `main` log and return normally, so the process exits
with code 0, not the claimed non-zero code. -/
theorem c7_unreadable_history_exit_zero :
    Historical.mainExitCode Historical.HistoryFile.unreadable true = 0 := by
  rfl

/-- C7 amended: the process exits 0 on a clean shutdown and exits 1 when
`run` returns an error, but an unreadable or unparseable history file
causes an early normal return from `main`, exiting 0 rather than 1. -/
theorem c7_exit_codes_amended (h : Historical.HistoryFile) (b : Bool) :
    Historical.mainExitCode h true = 0 ∧
    ((Historical.loadConfigs h).isSome = true → Historical.mainExitCode h false = 1) ∧
    (Historical.loadConfigs h = none → Historical.mainExitCode h b = 0) := by
  cases h <;> simp [Historical.mainExitCode, Historical.loadConfigs]

/-- C7 witness: the amended statement applied to a parsed (readable)
history and a failing run: exit code 1. -/
theorem c7_exit_codes_amended_witness :
    Historical.mainExitCode (Historical.HistoryFile.parsed []) false = 1 :=
  (c7_exit_codes_amended (Historical.HistoryFile.parsed []) false).2.1 rfl

/-- C4: for any node list and any `(subnetCount, subnetSize)` with
`subnetCount * subnetSize ≤ len(nodes)` and distinct nodes, the partition
has exactly `subnetCount` groups, every group has exactly `subnetSize`
elements, the groups concatenated in order equal the length-
`subnetCount * subnetSize` prefix of the node list (so they are
contiguous, in list order from index 0, and cover a prefix), and the
groups are pairwise disjoint. -/
theorem c4_subnet_partitioner (nodes : List α) (count size : Nat)
    (hle : count * size ≤ nodes.length) (hnd : nodes.Nodup) :
    (Multi.partition nodes count size).length = count ∧
    (∀ g ∈ Multi.partition nodes count size, g.length = size) ∧
    (Multi.partition nodes count size).flatten = nodes.take (count * size) ∧
    (Multi.partition nodes count size).Pairwise List.Disjoint :=
  ⟨partition_length nodes count size, partition_sizes nodes count size hle,
    partition_flatten nodes count size hle, partition_disjoint nodes count size hle hnd⟩

/-- C4 witness: the partitioner on a seven-node list with two subnets of
three. -/
theorem c4_subnet_partitioner_witness :
    (Multi.partition ([0, 1, 2, 3, 4, 5, 6] : List Nat) 2 3).length = 2 ∧
    (∀ g ∈ Multi.partition ([0, 1, 2, 3, 4, 5, 6] : List Nat) 2 3, g.length = 3) ∧
    (Multi.partition ([0, 1, 2, 3, 4, 5, 6] : List Nat) 2 3).flatten =
      ([0, 1, 2, 3, 4, 5, 6] : List Nat).take (2 * 3) ∧
    (Multi.partition ([0, 1, 2, 3, 4, 5, 6] : List Nat) 2 3).Pairwise List.Disjoint :=
  c4_subnet_partitioner [0, 1, 2, 3, 4, 5, 6] 2 3 (by decide) (by decide)

/-- C5: for every node index `i` in range (with the chain index in range),
the published URL is exactly
`http://127.0.0.1:{apiPort}/ext/bc/{chains[i / subnetSize]}/rpc`, using the
ChainID of the node's subnet; and with `subnetSize = 3`, node index 4 uses
chain index `4 / 3 = 1`. -/
theorem c5_rpc_urls (nodes : List Multi.NodeDescriptor) (chains : List String) (i : Nat)
    (hi : i < nodes.length) (hc : i / Multi.subnetSize < chains.length) :
    (Multi.rpcUrls nodes chains).get? i =
      some ("http://127.0.0.1:" ++ toString (nodes.get ⟨i, hi⟩).apiPort ++
        "/ext/bc/" ++ chains.get ⟨i / Multi.subnetSize, hc⟩ ++ "/rpc") ∧
    4 / Multi.subnetSize = 1 := by
  constructor
  · rw [Multi.rpcUrls, List.get?_map, List.get?_range hi]
    simp [Multi.rpcUrl, List.getElem?_eq_getElem hi, List.getElem?_eq_getElem hc]
  · decide

/-- C5 witness: in the nine-node, three-subnet sample cluster with chains
`["c0", "c1", "c2"]`, node index 4 (API port 9658) is published under
chain `c1`. -/
theorem c5_rpc_urls_witness :
    (Multi.rpcUrls Multi.sampleNodes ["c0", "c1", "c2"]).get? 4 =
      some "http://127.0.0.1:9658/ext/bc/c1/rpc" := by
  have h := (c5_rpc_urls Multi.sampleNodes ["c0", "c1", "c2"] 4 (by decide) (by decide)).1
  rw [h]
  rfl

/-- C6: `copy` fails with an error and creates no destination file when
the source cannot be stat-ed (missing/unreadable), is not a regular file,
or cannot be opened; and when the source is a regular file and every step
succeeds, no error is returned and the destination's permission bits
(0777) allow execution. -/
theorem c6_copy_error_handling (e : Copy.Env) :
    ((e.statRes = Copy.StatResult.err ∨ e.statRes = Copy.StatResult.ok false ∨
        e.openOk = false) →
      (Copy.copy e).1 = none ∧ (Copy.copy e).2.2.isSome = true) ∧
    (e.statRes = Copy.StatResult.ok true → e.openOk = true → e.createOk = true →
        e.ioErr = false → e.chmodOk = true →
      (Copy.copy e).2.2 = none ∧
      (Copy.copy e).1 = some ⟨e.ioBytes, Copy.chmodMode⟩ ∧
      Copy.allowsExecution Copy.chmodMode = true) := by
  obtain ⟨st, o, c, nb, ie, ch⟩ := e
  constructor
  · rintro (h | h | h) <;> simp only at h <;> subst h
    · simp [Copy.copy]
    · simp [Copy.copy]
    · cases st with
      | err => simp [Copy.copy]
      | ok r => cases r <;> simp [Copy.copy]
  · intro h1 h2 h3 h4 h5
    simp only at h1 h2 h3 h4 h5
    subst h1 h2 h3 h4 h5
    simp [Copy.copy, Copy.allowsExecution, Copy.chmodMode]

/-- C6 witness: a failed stat yields an error and no destination; a fully
successful copy of 5 bytes yields no error and an executable 0777
destination. -/
theorem c6_copy_error_handling_witness :
    ((Copy.copy ⟨Copy.StatResult.err, true, true, 0, false, true⟩).1 = none ∧
      (Copy.copy ⟨Copy.StatResult.err, true, true, 0, false, true⟩).2.2.isSome = true) ∧
    ((Copy.copy ⟨Copy.StatResult.ok true, true, true, 5, false, true⟩).2.2 = none ∧
      (Copy.copy ⟨Copy.StatResult.ok true, true, true, 5, false, true⟩).1 =
        some ⟨5, Copy.chmodMode⟩ ∧
      Copy.allowsExecution Copy.chmodMode = true) :=
  ⟨(c6_copy_error_handling ⟨Copy.StatResult.err, true, true, 0, false, true⟩).1 (Or.inl rfl),
    (c6_copy_error_handling ⟨Copy.StatResult.ok true, true, true, 5, false, true⟩).2
      rfl rfl rfl rfl rfl⟩

/-- C8: the post-bootstrap history update appends exactly one new
`{networkID, shift}` record: the updated list is one longer, its prefix is
the previously loaded list unchanged, and its last element is the new
record. The whole updated list is what is marshalled and written back to
the history file. -/
theorem c8_history_append (configs : List NetworkConfig) (networkID : Nat) :
    (Historical.updatedConfigs configs networkID).length = configs.length + 1 ∧
    (Historical.updatedConfigs configs networkID).take configs.length = configs ∧
    (Historical.updatedConfigs configs networkID).getLast? =
      some ⟨networkID, Historical.shift configs⟩ := by
  refine ⟨by simp [Historical.updatedConfigs], ?_, ?_⟩
  · rw [Historical.updatedConfigs]
    exact List.take_left configs [⟨networkID, Historical.shift configs⟩]
  · rw [Historical.updatedConfigs]
    exact List.getLast?_concat configs

/-- C9: once the source has stat-ed as a regular file and open/create
succeeded, a destination file exists on disk afterwards in every outcome;
when the chmod succeeds its permission bits are unconditionally 0777
(world-readable, -writable and -executable) even when the byte transfer
failed, in which case the error is returned but the partially-written
destination is left in place rather than removed. -/
theorem c9_chmod_unconditional (e : Copy.Env)
    (h1 : e.statRes = Copy.StatResult.ok true) (h2 : e.openOk = true)
    (h3 : e.createOk = true) :
    (Copy.copy e).1.isSome = true ∧
    (e.chmodOk = true → (Copy.copy e).1 = some ⟨e.ioBytes, Copy.chmodMode⟩) ∧
    (e.chmodOk = true → e.ioErr = true →
      (Copy.copy e).2.2 = some Copy.Err.copyFailed) ∧
    Copy.chmodMode = 0o777 := by
  obtain ⟨st, o, c, nb, ie, ch⟩ := e
  simp only at h1 h2 h3
  subst h1 h2 h3
  cases ch <;> cases ie <;> simp [Copy.copy, Copy.chmodMode]

/-- C9 witness: a copy whose byte transfer fails after 3 bytes still ends
with a 0777 destination file of 3 bytes on disk and returns the transfer
error. -/
theorem c9_chmod_unconditional_witness :
    (Copy.copy ⟨Copy.StatResult.ok true, true, true, 3, true, true⟩).1.isSome = true ∧
    (Copy.copy ⟨Copy.StatResult.ok true, true, true, 3, true, true⟩).1 =
      some ⟨3, Copy.chmodMode⟩ ∧
    (Copy.copy ⟨Copy.StatResult.ok true, true, true, 3, true, true⟩).2.2 =
      some Copy.Err.copyFailed ∧
    Copy.chmodMode = 0o777 := by
  have h := c9_chmod_unconditional ⟨Copy.StatResult.ok true, true, true, 3, true, true⟩
    rfl rfl rfl
  exact ⟨h.1, h.2.1 rfl, h.2.2.1 rfl rfl, h.2.2.2⟩

/-- C10: in the multi-subnet variant the requested node count is exactly
`subnetSize * amountOfSubnets` (`subnetSize = 3`); on a node list of that
length the subnet groups concatenated in order equal the whole node list —
every node belongs to exactly one group position and none is left
unassigned — and for distinct nodes the groups are pairwise disjoint. -/
theorem c10_all_nodes_assigned (a : Nat) (nodes : List α)
    (hcount : nodes.length = Multi.requestedNodeCount a)
    (hsmall : Multi.subnetSize * a < 2 ^ 32) :
    nodes.length = Multi.subnetSize * a ∧
    (Multi.partition nodes a Multi.subnetSize).flatten = nodes ∧
    (nodes.Nodup → (Multi.partition nodes a Multi.subnetSize).Pairwise List.Disjoint) := by
  have hlen : nodes.length = Multi.subnetSize * a := by
    rw [hcount, Multi.requestedNodeCount, Nat.mod_eq_of_lt hsmall]
  have hle : a * Multi.subnetSize ≤ nodes.length := by
    rw [hlen, Nat.mul_comm]
  refine ⟨hlen, ?_, fun hnd => partition_disjoint nodes a Multi.subnetSize hle hnd⟩
  rw [partition_flatten nodes a Multi.subnetSize hle]
  rw [show a * Multi.subnetSize = nodes.length by rw [hlen, Nat.mul_comm]]
  exact List.take_length nodes

/-- C10 witness: two subnets over a six-node list: the groups cover the
whole list and are disjoint. -/
theorem c10_all_nodes_assigned_witness :
    ([0, 1, 2, 3, 4, 5] : List Nat).length = Multi.subnetSize * 2 ∧
    (Multi.partition ([0, 1, 2, 3, 4, 5] : List Nat) 2 Multi.subnetSize).flatten =
      ([0, 1, 2, 3, 4, 5] : List Nat) ∧
    (([0, 1, 2, 3, 4, 5] : List Nat).Nodup →
      (Multi.partition ([0, 1, 2, 3, 4, 5] : List Nat) 2
        Multi.subnetSize).Pairwise List.Disjoint) :=
  c10_all_nodes_assigned 2 [0, 1, 2, 3, 4, 5] (by decide) (by decide)

end USR
